import Mathlib

/-!
Verification of the portfolio contact-form backend (Express server in
`server.js`). The pipeline, its helpers (`sanitizeInput`, `isValidEmail`,
the spam check), the validation middleware configuration and the
transporter bootstrap are embedded as executable Lean definitions; the
behaviour of third-party middleware (`express-rate-limit`,
`express-validator` chain combinators) that is configured but not defined
in this repository is modelled from the specification where noted.
-/

/-- Whitespace test used to model the JavaScript string `trim` operations. -/
def isWs (c : Char) : Bool := c.isWhitespace

/-- Remove leading and trailing whitespace from a character list
(model of JavaScript `String.prototype.trim`). -/
def trimChars (cs : List Char) : List Char :=
  ((cs.dropWhile isWs).reverse.dropWhile isWs).reverse

/-- String-level trim, model of the JavaScript `.trim()` used by
`sanitizeInput` and by the validator chains. -/
def strTrim (s : String) : String := ⟨trimChars s.data⟩

/-- Per-character lowercase map, model of `String.prototype.toLowerCase`
as used on the message before the spam check. -/
def strToLower (s : String) : String := ⟨s.data.map Char.toLower⟩

/-- Replace every occurrence of the character `c` in `s` by the string
`rep`: model of the JavaScript `s.replace(/c/g, rep)` with a
single-character global pattern, as in `sanitizeInput`. -/
def replaceAllChar (c : Char) (rep : String) (s : String) : String :=
  ⟨(s.data.map (fun d => if d = c then rep.data else [d])).flatten⟩

/-- A JavaScript value passed to `sanitizeInput`: either a string or some
non-string value (opaque, carrying an identifier so distinct non-string
inputs stay distinct). -/
inductive JsInput where
  | str (s : String)
  | nonString (id : Nat)
deriving DecidableEq, Repr

/-- The string branch of `sanitizeInput` exactly as written in the source
(server.js lines 175-183): four global single-character replacements
followed by `trim`. In the source text as given, the first three
replacements substitute the character for itself (`<` for `<`, `>` for
`>`, `"` for `"`); only the apostrophe is replaced by an entity. -/
def sanitizeStr (s : String) : String :=
  strTrim
    (replaceAllChar '\x27' "&#x27;"
      (replaceAllChar '"' "\""
        (replaceAllChar '>' ">"
          (replaceAllChar '<' "<" s))))

/-- Function `sanitizeInput` (server.js lines 175-183): non-string input is returned
unchanged; strings go through the replacement chain and `trim`. -/
def sanitizeInput : JsInput → JsInput
  | .nonString i => .nonString i
  | .str s => .str (sanitizeStr s)

/-- The part of a character list strictly after its first `'@'`
(empty when there is no `'@'`). -/
def afterFirstAt (cs : List Char) : List Char :=
  (cs.dropWhile (fun c => c != '@')).drop 1

/-- Function `isValidEmail` (server.js lines 188-191): the regular expression
`/^[^\s@]+@[^\s@]+\.[^\s@]+$/` — exactly one `'@'`, no whitespace
anywhere, a non-empty local part, and after the `'@'` a dot that has at
least one character on each side. The same "local@domain-with-dot"
pattern is the specification's model of the email rule enforced by the
route's validator chain. -/
def isValidEmail (s : String) : Bool :=
  let cs := s.data
  (cs.count '@' == 1) &&
  cs.all (fun c => !c.isWhitespace) &&
  (!(cs.takeWhile (fun c => c != '@')).isEmpty) &&
  (((afterFirstAt cs).drop 1).dropLast).contains '.'

/-- A contact-form submission as received by `POST /api/contact`. -/
structure ContactRequest where
  name : String
  email : String
  subject : Option String
  message : String
deriving DecidableEq, Repr

/-- Validation errors for `name` (server.js lines 394-398): `trim`, then
`notEmpty`, then `isLength {min 2, max 100}`; each failed rule contributes
one field-level error and the chain does not short-circuit. -/
def validateName (name : String) : List (String × String) :=
  let v := strTrim name
  (if v.length = 0 then [("name", "Name is required")] else []) ++
  (if v.length < 2 ∨ 100 < v.length then
    [("name", "Name must be between 2 and 100 characters")] else [])

/-- Validation errors for `email` (server.js lines 399-404): `trim`, then
`notEmpty`, then `isEmail`, then `isLength {max 254}`. The library's
`isEmail` is modelled by the repository's own `isValidEmail` regular
expression, the "simple local@domain-with-dot pattern" of the
specification; `normalizeEmail` is modelled as the identity (it is
length-preserving for plain addresses). -/
def validateEmail (email : String) : List (String × String) :=
  let v := strTrim email
  (if v.length = 0 then [("email", "Email is required")] else []) ++
  (if isValidEmail v then [] else
    [("email", "Please provide a valid email address")]) ++
  (if 254 < v.length then [("email", "Email is too long")] else [])

/-- Validation errors for `subject` (server.js lines 405-409): optional —
an absent field is skipped; when present, `trim` then
`isLength {max 200}`. -/
def validateSubject : Option String → List (String × String)
  | none => []
  | some s =>
    if 200 < (strTrim s).length then
      [("subject", "Subject must be less than 200 characters")] else []

/-- Validation errors for `message` (server.js lines 410-414): `trim`,
`notEmpty`, `isLength {min 10, max 5000}`. -/
def validateMessage (message : String) : List (String × String) :=
  let v := strTrim message
  (if v.length = 0 then [("message", "Message is required")] else []) ++
  (if v.length < 10 ∨ 5000 < v.length then
    [("message", "Message must be between 10 and 5000 characters")] else [])

/-- The full validation middleware of the contact route: all four field
chains run independently and their field-level errors are concatenated
(no short-circuiting across fields). -/
def validate (req : ContactRequest) : List (String × String) :=
  validateName req.name ++ validateEmail req.email ++
  validateSubject req.subject ++ validateMessage req.message

/-- Substring containment on strings: some suffix of `s` starts with
`sub`. Models JavaScript `s.includes(sub)`. -/
def hasSubstr (s sub : String) : Bool :=
  s.data.tails.any (fun t => sub.data.isPrefixOf t)

/-- The fixed spam keyword blocklist (server.js line 445). -/
def spamKeywords : List String :=
  ["casino", "lottery", "winner", "click here", "free money", "viagra",
   "crypto"]

/-- The spam check (server.js lines 445-447): lowercase the message and
test whether it contains any blocklisted keyword as a substring. -/
def containsSpam (message : String) : Bool :=
  spamKeywords.any (fun k => hasSubstr (strToLower message) k)

/-- The SMTP-related environment variables read by `createTransporter`
(server.js lines 125-152). -/
structure Env where
  smtpHost : Option String
  smtpUser : Option String
  smtpPass : Option String
deriving DecidableEq, Repr

/-- JavaScript truthiness of an environment variable: `undefined` and the
empty string are falsy, any other string is truthy. -/
def envTruthy : Option String → Bool
  | none => false
  | some s => !(s.length = 0)

/-- The transporter capability; its SMTP internals are external to the
pipeline, so it is modelled as an opaque token. -/
structure Transporter where
  token : Unit
deriving DecidableEq, Repr

/-- Function `createTransporter` (server.js lines 125-152): returns `null`
when any of `SMTP_HOST`, `SMTP_USER`, `SMTP_PASS` is unset or empty
(JavaScript falsiness), and a transporter built from the configuration
when all three are truthily set. -/
def createTransporter (env : Env) : Option Transporter :=
  if envTruthy env.smtpHost && envTruthy env.smtpUser && envTruthy env.smtpPass
  then some ⟨()⟩ else none

/-- The `emailConfigured` field of the health endpoint's body
(server.js line 385): `transporter !== null`. -/
def emailConfigured (t : Option Transporter) : Bool := t.isSome

/-- An error raised by `transporter.sendMail`, discriminated the way the
catch block discriminates it: by its `code` property. -/
inductive SendError where
  | eauth
  | econnection
  | etimedout
  | other (code : String)
deriving DecidableEq, Repr

/-- The JSON body and status of a response from the contact endpoint
(only the fields the claims speak about). -/
structure Response where
  status : Nat
  success : Bool
  code : Option String
  messageId : Option String
  details : List (String × String)
deriving DecidableEq, Repr

/-- The catch block of the contact handler (server.js lines 517-543):
`EAUTH` → 500 `EMAIL_AUTH_ERROR`; `ECONNECTION` or `ETIMEDOUT` → 500
`EMAIL_CONNECTION_ERROR`; anything else → 500 `INTERNAL_ERROR`. -/
def classifySendError : SendError → Response
  | .eauth => ⟨500, false, some "EMAIL_AUTH_ERROR", none, []⟩
  | .econnection => ⟨500, false, some "EMAIL_CONNECTION_ERROR", none, []⟩
  | .etimedout => ⟨500, false, some "EMAIL_CONNECTION_ERROR", none, []⟩
  | .other _ => ⟨500, false, some "INTERNAL_ERROR", none, []⟩

/-- The outcomes the external SMTP relay would produce for the two
`sendMail` calls of one request: the notification send (resolving to an
object carrying `messageId`) and the auto-reply send. -/
structure SendOutcomes where
  notif : Except SendError String
  ack : Except SendError Unit
deriving Repr

/-- Result of running the contact handler: the HTTP response together
with how many notification sends and how many acknowledgement sends were
started. -/
structure HandlerResult where
  response : Response
  notifSends : Nat
  ackSends : Nat
deriving DecidableEq, Repr

/-- The `POST /api/contact` handler body (server.js lines 416-543), after
the rate-limiting middleware: check validation errors (400
`VALIDATION_ERROR` with the field-error list), then transporter
availability (503 `SERVICE_UNAVAILABLE`), then the spam check on the
trimmed message (400 `SPAM_DETECTED`), then await the notification send —
on failure the catch block classifies the error; on success the
acknowledgement send is started fire-and-forget (its outcome is ignored)
and the response is 200 with `messageId` from the dispatcher. -/
def contactHandler (t : Option Transporter) (req : ContactRequest)
    (outs : SendOutcomes) : HandlerResult :=
  let errs := validate req
  if errs.isEmpty = false then
    ⟨⟨400, false, some "VALIDATION_ERROR", none, errs⟩, 0, 0⟩
  else
    match t with
    | none => ⟨⟨503, false, some "SERVICE_UNAVAILABLE", none, []⟩, 0, 0⟩
    | some _ =>
      if containsSpam (strTrim req.message) then
        ⟨⟨400, false, some "SPAM_DETECTED", none, []⟩, 0, 0⟩
      else
        match outs.notif with
        | .error e => ⟨classifySendError e, 1, 0⟩
        | .ok id => ⟨⟨200, true, none, some id, []⟩, 1, 1⟩

/-- The contact endpoint including the `contactLimiter` middleware
(server.js lines 84-96, 390-391): a denied request is answered 429 with
the configured `RATE_LIMIT_EXCEEDED` body before the handler runs; an
allowed request runs the handler. -/
def contactEndpoint (allowed : Bool) (t : Option Transporter)
    (req : ContactRequest) (outs : SendOutcomes) : HandlerResult :=
  if allowed then contactHandler t req outs
  else ⟨⟨429, false, some "RATE_LIMIT_EXCEEDED", none, []⟩, 0, 0⟩

/-- Modelled from the spec: the per-address window state kept by the
`express-rate-limit` middleware configured in server.js lines 84-96 (the
library's algorithm is not part of this repository) — "a count of
attempts and a window start timestamp". -/
structure RateEntry where
  count : Nat
  windowStart : Nat
deriving DecidableEq, Repr

/-- The contact limiter's window length: `15 * 60 * 1000` milliseconds
(server.js line 85). -/
def windowMs : Nat := 15 * 60 * 1000

/-- The contact limiter's cap: `RATE_LIMIT_MAX`, default 5
(server.js lines 25 and 86). -/
def rateLimitMax : Nat := 5

/-- Modelled from the spec: one rate-limiter check for one address —
"a key's counter and window-start are (re)initialized on the first
request after the previous window has fully elapsed"; within a live
window the counter is incremented while below the cap and the request is
denied at the cap. Returns the allow/deny decision and the updated
entry. -/
def rateCheck (e : Option RateEntry) (now : Nat) : Bool × RateEntry :=
  match e with
  | none => (true, ⟨1, now⟩)
  | some e =>
    if e.windowStart + windowMs ≤ now then (true, ⟨1, now⟩)
    else if e.count < rateLimitMax then (true, ⟨e.count + 1, e.windowStart⟩)
    else (false, e)

/-- Run a sequence of requests from one address through the rate limiter,
collecting the allow/deny decisions and the final entry. -/
def runRequests (e : Option RateEntry) : List Nat → List Bool × Option RateEntry
  | [] => ([], e)
  | now :: rest =>
    let r := rateCheck e now
    let rec' := runRequests (some r.2) rest
    (r.1 :: rec'.1, rec'.2)

example : isValidEmail "a@b.co" = true := by decide
example : isValidEmail "ab.co" = false := by decide
example : isValidEmail "a@@b.co" = false := by decide
example : isValidEmail "a@bco" = false := by decide
example : isValidEmail "a@b." = false := by decide
example : isValidEmail "a@.b" = false := by decide
example : isValidEmail "a@b.c.d" = true := by decide
example : sanitizeStr " hi " = "hi" := by decide
example : sanitizeStr "<script>" = "<script>" := by decide
example : sanitizeStr "a\x27b" = "a&#x27;b" := by decide
example : containsSpam "Buy VIAGRA now" = true := by decide
example : containsSpam "hello there" = false := by decide
example : validate ⟨"Jo", "jo@x.com", none, "1234567890"⟩ = [] := by decide
example : validate ⟨"J", "jo@x.com", none, "1234567890"⟩ =
    [("name", "Name must be between 2 and 100 characters")] := by decide

/-! ## Helper lemmas -/

lemma ite_singleton_eq_nil {α : Type} (c : Prop) [Decidable c] (x : α) :
    (if c then [x] else []) = ([] : List α) ↔ ¬ c := by
  split <;> simp [*]

lemma ite_nil_singleton_eq_nil {α : Type} (c : Prop) [Decidable c] (x : α) :
    (if c then ([] : List α) else [x]) = ([] : List α) ↔ c := by
  split <;> simp [*]

lemma strTrim_data (s : String) : (strTrim s).data = trimChars s.data := rfl

lemma isValidEmail_ne_zero {s : String} (h : isValidEmail s = true) :
    s.length ≠ 0 := by
  intro hlen
  have hd : s.data = [] := List.length_eq_zero.mp hlen
  rw [isValidEmail] at h
  simp [hd] at h

lemma validateName_eq_nil (s : String) :
    validateName s = [] ↔
      2 ≤ (strTrim s).length ∧ (strTrim s).length ≤ 100 := by
  simp only [validateName, List.append_eq_nil, ite_singleton_eq_nil]
  omega

lemma validateEmail_eq_nil (s : String) :
    validateEmail s = [] ↔
      isValidEmail (strTrim s) = true ∧ (strTrim s).length ≤ 254 := by
  simp only [validateEmail, List.append_eq_nil, ite_singleton_eq_nil,
    ite_nil_singleton_eq_nil]
  constructor
  · rintro ⟨⟨_, h2⟩, h3⟩
    exact ⟨h2, by omega⟩
  · rintro ⟨h2, h3⟩
    exact ⟨⟨isValidEmail_ne_zero h2, h2⟩, by omega⟩

lemma validateSubject_eq_nil (o : Option String) :
    validateSubject o = [] ↔ ∀ s, o = some s → (strTrim s).length ≤ 200 := by
  cases o with
  | none => simp [validateSubject]
  | some s =>
    simp only [validateSubject, ite_singleton_eq_nil]
    constructor
    · intro h s' hs'
      cases hs'
      omega
    · intro h
      have := h s rfl
      omega

lemma validateMessage_eq_nil (s : String) :
    validateMessage s = [] ↔
      10 ≤ (strTrim s).length ∧ (strTrim s).length ≤ 5000 := by
  simp only [validateMessage, List.append_eq_nil, ite_singleton_eq_nil]
  omega

lemma validate_eq_nil (req : ContactRequest) :
    validate req = [] ↔
      validateName req.name = [] ∧ validateEmail req.email = [] ∧
      validateSubject req.subject = [] ∧ validateMessage req.message = [] := by
  simp [validate, List.append_eq_nil, and_assoc]

lemma dropWhile_ws_replicate (n : Nat) :
    List.dropWhile isWs (List.replicate n 'a') = List.replicate n 'a' := by
  cases n with
  | zero => rfl
  | succ m =>
    rw [List.replicate_succ, List.dropWhile_cons, if_neg (by decide)]

lemma trimChars_replicate (n : Nat) :
    trimChars (List.replicate n 'a') = List.replicate n 'a' := by
  unfold trimChars
  rw [dropWhile_ws_replicate, List.reverse_replicate, dropWhile_ws_replicate,
    List.reverse_replicate]

lemma strTrim_mkReplicate (n : Nat) :
    (strTrim (String.mk (List.replicate n 'a'))).length = n := by
  show (trimChars (List.replicate n 'a')).length = n
  rw [trimChars_replicate, List.length_replicate]

lemma mem_name_error {s : String} (h : (strTrim s).length < 2) :
    "name" ∈ (validateName s).map Prod.fst := by
  have hmem : ("name", "Name must be between 2 and 100 characters")
      ∈ validateName s := by
    simp only [validateName]
    refine List.mem_append.mpr (Or.inr ?_)
    rw [if_pos (Or.inl h)]
    exact List.mem_singleton.mpr rfl
  exact List.mem_map.mpr ⟨_, hmem, rfl⟩

lemma mem_message_error {s : String} (h : (strTrim s).length < 10) :
    "message" ∈ (validateMessage s).map Prod.fst := by
  have hmem : ("message", "Message must be between 10 and 5000 characters")
      ∈ validateMessage s := by
    simp only [validateMessage]
    refine List.mem_append.mpr (Or.inr ?_)
    rw [if_pos (Or.inl h)]
    exact List.mem_singleton.mpr rfl
  exact List.mem_map.mpr ⟨_, hmem, rfl⟩

lemma mem_email_error {s : String} (h : isValidEmail (strTrim s) = false) :
    "email" ∈ (validateEmail s).map Prod.fst := by
  have hmem : ("email", "Please provide a valid email address")
      ∈ validateEmail s := by
    simp only [validateEmail]
    refine List.mem_append.mpr (Or.inl (List.mem_append.mpr (Or.inr ?_)))
    rw [if_neg (by simp [h])]
    exact List.mem_singleton.mpr rfl
  exact List.mem_map.mpr ⟨_, hmem, rfl⟩

lemma count_at_dropWhile_ws (cs : List Char) :
    (List.dropWhile isWs cs).count '@' = cs.count '@' := by
  conv_rhs => rw [← List.takeWhile_append_dropWhile (p := isWs) (l := cs)]
  rw [List.count_append]
  have h : (List.takeWhile isWs cs).count '@' = 0 := by
    rw [List.count_eq_zero]
    intro hmem
    exact absurd (List.mem_takeWhile_imp hmem) (by decide)
  omega

lemma count_at_trimChars (cs : List Char) :
    (trimChars cs).count '@' = cs.count '@' := by
  unfold trimChars
  rw [List.count_reverse, count_at_dropWhile_ws, List.count_reverse,
    count_at_dropWhile_ws]

lemma afterFirstAt_cons_at (t : List Char) : afterFirstAt ('@' :: t) = t := by
  unfold afterFirstAt
  rw [List.dropWhile_cons, if_neg (by decide)]
  rfl

lemma afterFirstAt_cons_ne {a : Char} (h : a ≠ '@') (t : List Char) :
    afterFirstAt (a :: t) = afterFirstAt t := by
  unfold afterFirstAt
  rw [List.dropWhile_cons, if_pos (by simp [h])]

lemma mem_afterFirstAt_append (m w : List Char) (x : Char) :
    x ∈ afterFirstAt m → x ∈ afterFirstAt (m ++ w) := by
  induction m with
  | nil =>
    intro h
    simp [afterFirstAt] at h
  | cons a t ih =>
    by_cases ha : a = '@'
    · subst ha
      rw [afterFirstAt_cons_at, List.cons_append, afterFirstAt_cons_at]
      intro h
      exact List.mem_append.mpr (Or.inl h)
    · rw [afterFirstAt_cons_ne ha, List.cons_append, afterFirstAt_cons_ne ha]
      exact ih

lemma afterFirstAt_wsHead (w m : List Char) (hw : ∀ x ∈ w, isWs x = true) :
    afterFirstAt (w ++ m) = afterFirstAt m := by
  induction w with
  | nil => rfl
  | cons a t ih =>
    have ha : a ≠ '@' := by
      intro he
      subst he
      exact absurd (hw '@' (List.mem_cons_self _ _)) (by decide)
    rw [List.cons_append, afterFirstAt_cons_ne ha]
    exact ih (fun x hx => hw x (List.mem_cons_of_mem _ hx))

lemma mem_afterFirstAt_trimChars (cs : List Char) (x : Char) :
    x ∈ afterFirstAt (trimChars cs) → x ∈ afterFirstAt cs := by
  intro hx
  have hdecomp : List.dropWhile isWs cs =
      trimChars cs ++
        (List.takeWhile isWs (List.dropWhile isWs cs).reverse).reverse := by
    unfold trimChars
    conv_lhs => rw [← List.reverse_reverse (List.dropWhile isWs cs),
      ← List.takeWhile_append_dropWhile (p := isWs)
        (l := (List.dropWhile isWs cs).reverse),
      List.reverse_append]
  have h1 : x ∈ afterFirstAt (List.dropWhile isWs cs) := by
    rw [hdecomp]
    exact mem_afterFirstAt_append _ _ _ hx
  have h2 : afterFirstAt cs = afterFirstAt (List.dropWhile isWs cs) := by
    conv_lhs => rw [← List.takeWhile_append_dropWhile (p := isWs) (l := cs)]
    exact afterFirstAt_wsHead _ _ (fun y hy => List.mem_takeWhile_imp hy)
  rw [h2]
  exact h1

lemma contains_dot_mem {r : List Char}
    (h : ((r.drop 1).dropLast).contains '.' = true) : '.' ∈ r := by
  have hm : '.' ∈ (r.drop 1).dropLast := by simpa using h
  exact List.Sublist.mem (List.mem_of_mem_dropLast hm) (List.drop_sublist 1 r)

lemma isValidEmail_false_of_count {s : String} (h : s.data.count '@' ≠ 1) :
    isValidEmail s = false := by
  unfold isValidEmail
  have hb : (s.data.count '@' == 1) = false := by simpa using h
  simp [hb]

lemma isValidEmail_false_of_no_dot {s : String}
    (h : '.' ∉ afterFirstAt s.data) : isValidEmail s = false := by
  have hD : (((afterFirstAt s.data).drop 1).dropLast).contains '.' = false := by
    by_cases hc : (((afterFirstAt s.data).drop 1).dropLast).contains '.' = true
    · exact absurd (contains_dot_mem hc) h
    · simpa using hc
  show ((s.data.count '@' == 1) &&
      (s.data.all (fun c => !c.isWhitespace)) &&
      (!(s.data.takeWhile (fun c => c != '@')).isEmpty) &&
      ((((afterFirstAt s.data).drop 1).dropLast).contains '.')) = false
  rw [hD]
  simp

lemma isPrefixOfEquiv {l₁ l₂ : List Char} :
    l₁.isPrefixOf l₂ = true ↔ l₁ <+: l₂ := List.isPrefixOf_iff_prefix

lemma hasSubstr_iff (s sub : String) :
    hasSubstr s sub = true ↔ sub.data <:+: s.data := by
  unfold hasSubstr
  rw [List.any_eq_true]
  constructor
  · rintro ⟨t, ht, hp⟩
    rw [List.mem_tails] at ht
    rcases ht with ⟨pre, hpre⟩
    rcases isPrefixOfEquiv.mp hp with ⟨post, hpost⟩
    exact ⟨pre, post, by rw [← hpre, ← hpost, List.append_assoc]⟩
  · rintro ⟨pre, post, heq⟩
    refine ⟨sub.data ++ post, (List.mem_tails _ _).mpr ⟨pre, ?_⟩,
      isPrefixOfEquiv.mpr ⟨post, rfl⟩⟩
    rw [← heq, List.append_assoc]

/-! ## Claim theorems -/

/-- Claim C2 (code-bug evidence): the Input Sanitizer as written leaves
`<`, `>` and `"` untouched (the source replaces each of those characters
by itself); only the apostrophe is entity-encoded, and surrounding
whitespace is trimmed. The claim that all four characters become
HTML-entity equivalents fails at input `"<"`. -/
theorem c2_sanitize_no_entity_encoding :
    sanitizeInput (JsInput.str " <a> \"b\" \x27c\x27 ") =
      JsInput.str "<a> \"b\" &#x27;c&#x27;" ∧
    sanitizeInput (JsInput.str "<") = JsInput.str "<" ∧
    sanitizeInput (JsInput.nonString 7) = JsInput.nonString 7 := by
  refine ⟨by decide, by decide, rfl⟩

/-- Claim C9 (code-bug evidence): sanitizing the literal text `<script>`
returns it unchanged — the output still contains a raw `<` — instead of
the HTML-entity sequence the claim requires. -/
theorem c9_sanitize_script_stays_raw :
    sanitizeStr "<script>" = "<script>" ∧
    '<' ∈ (sanitizeStr "<script>").data := by
  refine ⟨by decide, by decide⟩

/-- Claim C4: the Validator returns an empty error list exactly when the
trimmed name length is in [2,100], the trimmed email satisfies the email
pattern and has length at most 254, the subject is absent or its trimmed
length is at most 200, and the trimmed message length is in [10,5000];
name boundary lengths 2 and 100 pass while 1 and 101 fail; message
lengths 10 through 5000 pass while 9 and 5001 fail; violations are
collected without short-circuiting (a request with both a name and a
message violation reports both fields). -/
theorem c4_validator_characterisation :
    (∀ req : ContactRequest,
      validate req = [] ↔
        (2 ≤ (strTrim req.name).length ∧ (strTrim req.name).length ≤ 100) ∧
        (isValidEmail (strTrim req.email) = true ∧
          (strTrim req.email).length ≤ 254) ∧
        (∀ s, req.subject = some s → (strTrim s).length ≤ 200) ∧
        (10 ≤ (strTrim req.message).length ∧
          (strTrim req.message).length ≤ 5000)) ∧
    (∀ n, 2 ≤ n → n ≤ 100 →
      validateName (String.mk (List.replicate n 'a')) = []) ∧
    validateName (String.mk (List.replicate 1 'a')) ≠ [] ∧
    validateName (String.mk (List.replicate 101 'a')) ≠ [] ∧
    (∀ n, 10 ≤ n → n ≤ 5000 →
      validateMessage (String.mk (List.replicate n 'a')) = []) ∧
    validateMessage (String.mk (List.replicate 9 'a')) ≠ [] ∧
    validateMessage (String.mk (List.replicate 5001 'a')) ≠ [] ∧
    (∀ req : ContactRequest,
      (strTrim req.name).length < 2 → (strTrim req.message).length < 10 →
      "name" ∈ (validate req).map Prod.fst ∧
      "message" ∈ (validate req).map Prod.fst) := by
  refine ⟨?_, ?_, ?_, ?_, ?_, ?_, ?_, ?_⟩
  · intro req
    rw [validate_eq_nil, validateName_eq_nil, validateEmail_eq_nil,
      validateSubject_eq_nil, validateMessage_eq_nil]
  · intro n h1 h2
    refine (validateName_eq_nil _).mpr ?_
    rw [strTrim_mkReplicate]
    omega
  · intro hc
    have := (validateName_eq_nil _).mp hc
    rw [strTrim_mkReplicate] at this
    omega
  · intro hc
    have := (validateName_eq_nil _).mp hc
    rw [strTrim_mkReplicate] at this
    omega
  · intro n h1 h2
    refine (validateMessage_eq_nil _).mpr ?_
    rw [strTrim_mkReplicate]
    omega
  · intro hc
    have := (validateMessage_eq_nil _).mp hc
    rw [strTrim_mkReplicate] at this
    omega
  · intro hc
    have := (validateMessage_eq_nil _).mp hc
    rw [strTrim_mkReplicate] at this
    omega
  · intro req hn hm
    have h1 := mem_name_error hn
    have h2 := mem_message_error hm
    constructor <;>
      · simp only [validate, List.map_append, List.mem_append]
        tauto

/-- Witness for C4: the lower message boundary 10 passes, by the
boundary clause of the theorem applied at the concrete length 10. -/
theorem c4_validator_characterisation_witness :
    (10 ≤ 10 ∧ 10 ≤ 5000) ∧
    validateMessage (String.mk (List.replicate 10 'a')) = [] :=
  ⟨by decide, c4_validator_characterisation.2.2.2.2.1 10 (by decide) (by decide)⟩

/-- Claim C8: whenever the (trim-insensitive) raw email text does not have
exactly one `@`, or has no `.` after its first `@`, the Validator reports
an error on the `email` field; the concrete address `a@b.co` passes the
email pattern and produces no email error. -/
theorem c8_email_rule :
    (∀ req : ContactRequest,
      (req.email.data.count '@' ≠ 1 ∨ '.' ∉ afterFirstAt req.email.data) →
      "email" ∈ (validate req).map Prod.fst) ∧
    isValidEmail "a@b.co" = true ∧ validateEmail "a@b.co" = [] := by
  refine ⟨?_, by decide, by decide⟩
  intro req h
  have hfalse : isValidEmail (strTrim req.email) = false := by
    rcases h with h | h
    · apply isValidEmail_false_of_count
      rw [strTrim_data, count_at_trimChars]
      exact h
    · apply isValidEmail_false_of_no_dot
      intro hx
      rw [strTrim_data] at hx
      exact h (mem_afterFirstAt_trimChars _ _ hx)
  have hmem := mem_email_error hfalse
  simp only [validate, List.map_append, List.mem_append]
  tauto

/-- Witness for C8: the address `ab.co` has no `@`, and a request carrying
it is reported with an `email` field error. -/
theorem c8_email_rule_witness :
    (("ab.co" : String).data.count '@' ≠ 1 ∨
      '.' ∉ afterFirstAt ("ab.co" : String).data) ∧
    "email" ∈
      (validate ⟨"Jo", "ab.co", none, "1234567890"⟩).map Prod.fst :=
  ⟨by decide, c8_email_rule.1 ⟨"Jo", "ab.co", none, "1234567890"⟩ (by decide)⟩

/-- Claim C5: the Spam Filter returns true exactly when the case-folded
message contains one of the fixed blocklisted substrings (no word
boundary required), and any message built around "viagra" in any
letter-case — with arbitrary surrounding context — is flagged. -/
theorem c5_spam_filter :
    (∀ msg : String, containsSpam msg = true ↔
      ∃ k ∈ spamKeywords, k.data <:+: (strToLower msg).data) ∧
    (∀ a v b : String, strToLower v = "viagra" →
      containsSpam (a ++ v ++ b) = true) := by
  constructor
  · intro msg
    simp only [containsSpam, List.any_eq_true, hasSubstr_iff]
  · intro a v b hv
    have hvdata : v.data.map Char.toLower = ("viagra" : String).data :=
      congrArg String.data hv
    have hdata : (strToLower (a ++ v ++ b)).data =
        (a.data.map Char.toLower ++ ("viagra" : String).data) ++
          b.data.map Char.toLower := by
      show ((a ++ v ++ b).data).map Char.toLower = _
      rw [String.data_append, String.data_append, List.map_append,
        List.map_append, hvdata]
    apply List.any_eq_true.mpr
    refine ⟨"viagra", by decide, ?_⟩
    rw [hasSubstr_iff, hdata]
    exact ⟨a.data.map Char.toLower, b.data.map Char.toLower, rfl⟩

/-- Witness for C5: the mixed-case fragment `ViAgRa` embedded in context
is flagged as spam, by the second clause of the theorem. -/
theorem c5_spam_filter_witness :
    strToLower "ViAgRa" = "viagra" ∧
    containsSpam ("Get " ++ "ViAgRa" ++ " today") = true :=
  ⟨by decide, c5_spam_filter.2 "Get " "ViAgRa" " today" (by decide)⟩

/-- Claim C1: an acknowledgement send is started only when the
notification send's hand-off succeeded (a positive acknowledgement-send
count implies the notification outcome was `ok`), and the HTTP response
is identical whatever the acknowledgement outcome is. -/
theorem c1_ack_ordering :
    (∀ (t : Option Transporter) (req : ContactRequest) (outs : SendOutcomes),
      0 < (contactHandler t req outs).ackSends →
      ∃ id, outs.notif = Except.ok id) ∧
    (∀ (t : Option Transporter) (req : ContactRequest)
      (notif : Except SendError String) (a₁ a₂ : Except SendError Unit),
      (contactHandler t req ⟨notif, a₁⟩).response =
        (contactHandler t req ⟨notif, a₂⟩).response) := by
  constructor
  · intro t req outs h
    by_cases hv : (validate req).isEmpty = false
    · simp [contactHandler, hv] at h
    · cases t with
      | none => simp [contactHandler, hv] at h
      | some tr =>
        by_cases hs : containsSpam (strTrim req.message) = true
        · simp [contactHandler, hv, hs] at h
        · cases hn : outs.notif with
          | error e => simp [contactHandler, hv, hs, hn] at h
          | ok id => exact ⟨id, rfl⟩
  · intro t req notif a₁ a₂
    rfl

/-- Witness for C1: on a successful notification outcome the
acknowledgement count is positive and the notification outcome is `ok`. -/
theorem c1_ack_ordering_witness :
    0 < (contactHandler (some ⟨()⟩) ⟨"Jo", "jo@x.com", none, "1234567890"⟩
        ⟨Except.ok "mid1", Except.ok ()⟩).ackSends ∧
    ∃ id, (SendOutcomes.mk (Except.ok "mid1") (Except.ok ())).notif =
      Except.ok id :=
  ⟨by decide,
    c1_ack_ordering.1 (some ⟨()⟩) ⟨"Jo", "jo@x.com", none, "1234567890"⟩
      ⟨Except.ok "mid1", Except.ok ()⟩ (by decide)⟩

/-- Claim C6: when the synchronous notification send fails on a request
that passed validation, availability and the spam check, the response is
HTTP 500 with `EMAIL_AUTH_ERROR` for an authentication failure,
`EMAIL_CONNECTION_ERROR` for a connection or timeout failure, and
`INTERNAL_ERROR` for anything else; no other status or code occurs. -/
theorem c6_failure_classification :
    ∀ (tr : Transporter) (req : ContactRequest) (e : SendError)
      (a : Except SendError Unit),
      validate req = [] → containsSpam (strTrim req.message) = false →
      (contactHandler (some tr) req ⟨Except.error e, a⟩).response =
        ⟨500, false,
          some (match e with
            | .eauth => "EMAIL_AUTH_ERROR"
            | .econnection => "EMAIL_CONNECTION_ERROR"
            | .etimedout => "EMAIL_CONNECTION_ERROR"
            | .other _ => "INTERNAL_ERROR"),
          none, []⟩ := by
  intro tr req e a hv hs
  simp only [contactHandler, hv, hs]
  cases e <;> rfl

/-- Witness for C6: an authentication failure on a valid submission is
answered 500 `EMAIL_AUTH_ERROR`. -/
theorem c6_failure_classification_witness :
    validate ⟨"Jo", "jo@x.com", none, "1234567890"⟩ = [] ∧
    containsSpam (strTrim "1234567890") = false ∧
    (contactHandler (some ⟨()⟩) ⟨"Jo", "jo@x.com", none, "1234567890"⟩
        ⟨Except.error SendError.eauth, Except.ok ()⟩).response =
      ⟨500, false, some "EMAIL_AUTH_ERROR", none, []⟩ :=
  ⟨by decide, by decide,
    c6_failure_classification ⟨()⟩ ⟨"Jo", "jo@x.com", none, "1234567890"⟩
      SendError.eauth (Except.ok ()) (by decide) (by decide)⟩

/-- Claim C7: a submission that passes rate limiting, validation, the
availability check and the spam check, and whose notification send
succeeds with identifier `id`, is answered HTTP 200 with success and that
(non-empty, by hypothesis on the dispatcher) message identifier, with
exactly one notification send and one acknowledgement send. -/
theorem c7_success_path :
    ∀ (tr : Transporter) (req : ContactRequest) (id : String)
      (a : Except SendError Unit),
      validate req = [] → containsSpam (strTrim req.message) = false →
      id ≠ "" →
      contactEndpoint true (some tr) req ⟨Except.ok id, a⟩ =
        ⟨⟨200, true, none, some id, []⟩, 1, 1⟩ := by
  intro tr req id a hv hs _
  simp [contactEndpoint, contactHandler, hv, hs]

/-- Witness for C7: the specification's end-to-end example submission
(name `Jo`, email `jo@x.com`, no subject, a ten-character message) with a
successful dispatch yields 200, the dispatcher's identifier, one
notification send and one acknowledgement send. -/
theorem c7_success_path_witness :
    validate ⟨"Jo", "jo@x.com", none, "1234567890"⟩ = [] ∧
    containsSpam (strTrim "1234567890") = false ∧
    ("mid-1" : String) ≠ "" ∧
    contactEndpoint true (some ⟨()⟩) ⟨"Jo", "jo@x.com", none, "1234567890"⟩
        ⟨Except.ok "mid-1", Except.ok ()⟩ =
      ⟨⟨200, true, none, some "mid-1", []⟩, 1, 1⟩ :=
  ⟨by decide, by decide, by decide,
    c7_success_path ⟨()⟩ ⟨"Jo", "jo@x.com", none, "1234567890"⟩ "mid-1"
      (Except.ok ()) (by decide) (by decide) (by decide)⟩

/-- Claim C10: the health endpoint's `emailConfigured` field is true
exactly when all three SMTP settings are (truthily) present at startup,
and whenever the transporter is absent every submission that passes
validation is rejected 503 `SERVICE_UNAVAILABLE` with no send
attempted. -/
theorem c10_transporter_gates_contact :
    (∀ env : Env, emailConfigured (createTransporter env) =
      (envTruthy env.smtpHost && envTruthy env.smtpUser &&
        envTruthy env.smtpPass)) ∧
    (∀ (req : ContactRequest) (outs : SendOutcomes),
      validate req = [] →
      contactHandler none req outs =
        ⟨⟨503, false, some "SERVICE_UNAVAILABLE", none, []⟩, 0, 0⟩) := by
  constructor
  · intro env
    cases hb : (envTruthy env.smtpHost && envTruthy env.smtpUser &&
        envTruthy env.smtpPass) <;>
      simp [createTransporter, emailConfigured, hb]
  · intro req outs hv
    simp [contactHandler, hv]

/-- Witness for C10: with an unconfigured transporter, the valid example
submission is answered 503 with no sends. -/
theorem c10_transporter_gates_contact_witness :
    validate ⟨"Jo", "jo@x.com", none, "1234567890"⟩ = [] ∧
    contactHandler none ⟨"Jo", "jo@x.com", none, "1234567890"⟩
        ⟨Except.ok "mid-1", Except.ok ()⟩ =
      ⟨⟨503, false, some "SERVICE_UNAVAILABLE", none, []⟩, 0, 0⟩ :=
  ⟨by decide,
    c10_transporter_gates_contact.2 ⟨"Jo", "jo@x.com", none, "1234567890"⟩
      ⟨Except.ok "mid-1", Except.ok ()⟩ (by decide)⟩

/-- Claim C3: for one client address, five requests inside one 15-minute
window are allowed, the sixth inside the same window is denied, and a
request issued once the window has elapsed is allowed again with the
counter reset to 1; a denied request is answered HTTP 429 with code
`RATE_LIMIT_EXCEEDED`. -/
theorem c3_rate_limit_window :
    (∀ t0 t1 t2 t3 t4 t5 u : Nat,
      t1 < t0 + windowMs → t2 < t0 + windowMs → t3 < t0 + windowMs →
      t4 < t0 + windowMs → t5 < t0 + windowMs → t0 + windowMs ≤ u →
      runRequests none [t0, t1, t2, t3, t4, t5, u] =
        ([true, true, true, true, true, false, true], some ⟨1, u⟩)) ∧
    (∀ (t : Option Transporter) (req : ContactRequest) (outs : SendOutcomes),
      (contactEndpoint false t req outs).response =
        ⟨429, false, some "RATE_LIMIT_EXCEEDED", none, []⟩) := by
  constructor
  · intro t0 t1 t2 t3 t4 t5 u h1 h2 h3 h4 h5 hu
    have e0 : rateCheck none t0 = (true, ⟨1, t0⟩) := rfl
    have e1 : rateCheck (some ⟨1, t0⟩) t1 = (true, ⟨2, t0⟩) := by
      simp only [rateCheck]
      rw [if_neg (by omega), if_pos (by decide)]
    have e2 : rateCheck (some ⟨2, t0⟩) t2 = (true, ⟨3, t0⟩) := by
      simp only [rateCheck]
      rw [if_neg (by omega), if_pos (by decide)]
    have e3 : rateCheck (some ⟨3, t0⟩) t3 = (true, ⟨4, t0⟩) := by
      simp only [rateCheck]
      rw [if_neg (by omega), if_pos (by decide)]
    have e4 : rateCheck (some ⟨4, t0⟩) t4 = (true, ⟨5, t0⟩) := by
      simp only [rateCheck]
      rw [if_neg (by omega), if_pos (by decide)]
    have e5 : rateCheck (some ⟨5, t0⟩) t5 = (false, ⟨5, t0⟩) := by
      simp only [rateCheck]
      rw [if_neg (by omega), if_neg (by decide)]
    have e6 : rateCheck (some ⟨5, t0⟩) u = (true, ⟨1, u⟩) := by
      simp only [rateCheck]
      rw [if_pos (by omega)]
    simp [runRequests, e0, e1, e2, e3, e4, e5, e6]
  · intro t req outs
    rfl

/-- Witness for C3: with the first request at time 0 and five more inside
the window, the observed decisions are five allows, one deny, and an
allow with a reset counter at the window boundary. -/
theorem c3_rate_limit_window_witness :
    (1 < 0 + windowMs ∧ 0 + windowMs ≤ windowMs) ∧
    runRequests none [0, 1, 1, 1, 1, 1, windowMs] =
      ([true, true, true, true, true, false, true], some ⟨1, windowMs⟩) :=
  ⟨⟨by decide, by decide⟩,
    c3_rate_limit_window.1 0 1 1 1 1 1 windowMs (by decide) (by decide)
      (by decide) (by decide) (by decide) (by decide)⟩
